import Mathlib

/-!
# Verification of `scripts/clean_raw_data.py`

A shallow embedding of the raw-AQI cleaning script.  Tables are lists of
rows; a cell of a raw table is either absent (pandas `NaN`), a numeric
value (modelled as a rational), or a non-null value that is not parseable
as a number (`nonnum`, e.g. an arbitrary string).  `pd.to_numeric(...,
errors="coerce")` maps a cell to an optional rational; `dropna` filters on
cell absence.  Dates are calendar triples: `pd.to_datetime(...,
errors="coerce")` is modelled by the row already carrying the parse
result (`Option Date`), absent when the raw text was unparseable.
-/

namespace CleanRawData

/-- A raw table cell: absent (`NaN`), numeric, or non-null but not
parseable as a number (e.g. a free-form string). -/
inductive Cell where
  | absent : Cell
  | num : ℚ → Cell
  | nonnum : Cell
deriving DecidableEq, Repr

/-- `pandas.isna` on a cell. -/
def Cell.isAbsent : Cell → Bool
  | .absent => true
  | _ => false

/-- `pd.to_numeric(..., errors="coerce")` on a cell: numeric values pass
through, absent and unparseable values become absent. -/
def Cell.toNumeric : Cell → Option ℚ
  | .num q => some q
  | _ => none

/-- A calendar date (the result of a successful `pd.to_datetime` parse of
a date string in a daily series). -/
structure Date where
  year : ℕ
  month : ℕ
  day : ℕ
deriving DecidableEq, Repr

/-- Calendar order on dates (lexicographic year, month, day), matching
timestamp comparison on parsed dates. -/
def dateLe (a b : Date) : Bool :=
  decide (a.year < b.year) ||
    (decide (a.year = b.year) &&
      (decide (a.month < b.month) ||
        (decide (a.month = b.month) && decide (a.day ≤ b.day))))

/-- `lo <= d <= hi`, as in `df[(df["Date"] >= lo) & (df["Date"] <= hi)]`. -/
def dateBetween (lo hi d : Date) : Bool :=
  dateLe lo d && dateLe d hi

/-! ## 4.1 Delhi-NCR hourly cleaner (`clean_delhi_ncr_aqi`) -/

/-- A row of the Delhi-NCR raw table: the `aqi` and `pm25` cells, the
`year` value (numeric or absent) and the remaining measurement-column
cells of the `num_cols` list (pm10, no2, ..., visibility), bundled as a
list since the script coerces each of them uniformly. -/
structure DelhiRow where
  aqi : Cell
  pm25 : Cell
  year : Option ℚ
  meas : List Cell
deriving DecidableEq, Repr

/-- The Delhi-NCR raw table: its rows plus whether a `year` column exists
(`"year" in df.columns`). -/
structure DelhiFrame where
  hasYear : Bool
  rows : List DelhiRow
deriving DecidableEq, Repr

/-- An output row of the Delhi-NCR cleaner, after numeric coercion. -/
structure DelhiOut where
  aqi : Option ℚ
  pm25 : Option ℚ
  year : Option ℚ
  meas : List (Option ℚ)
deriving DecidableEq, Repr

/-- `clean_delhi_ncr_aqi` on a loaded frame: drop rows with null `aqi` or
`pm25` (before any numeric coercion), keep `year` between 2020 and 2024
inclusive when a year column exists (a null year fails `between`), then
coerce the numeric columns. -/
def clean_delhi_ncr_aqi (f : DelhiFrame) : List DelhiOut :=
  let r1 := f.rows.filter (fun r => !r.aqi.isAbsent && !r.pm25.isAbsent)
  let r2 :=
    if f.hasYear then
      r1.filter (fun r =>
        match r.year with
        | some y => decide ((2020 : ℚ) ≤ y) && decide (y ≤ (2024 : ℚ))
        | none => false)
    else r1
  r2.map (fun r => ⟨r.aqi.toNumeric, r.pm25.toNumeric, r.year, r.meas.map Cell.toNumeric⟩)

/-! ## 4.2 City-day cleaner and COVID aggregate (`clean_city_day`) -/

/-- A row of the raw `city_day.csv` table: the parsed `Date` cell (absent
when `pd.to_datetime(..., errors="coerce")` failed), the `City` cell, the
`AQI` cell, and the remaining measurement-column cells (`PM2.5`, `PM10`,
`NO`, `NO2`, `CO`, `SO2`, `O3`) bundled as a list since the script
coerces each of them uniformly and none of them feeds the aggregate. -/
structure CityRow where
  date : Option Date
  city : Option String
  aqi : Cell
  meas : List Cell
deriving DecidableEq, Repr

/-- A city-day row after date filtering and numeric coercion: a present
parsed date, the (possibly absent) city, the coerced AQI and the coerced
measurement values. -/
structure CityRow2 where
  date : Date
  city : Option String
  aqi : Option ℚ
  meas : List (Option ℚ)
deriving DecidableEq, Repr

/-- Lines 57-63: parse `Date`, drop rows with an unparseable date, coerce
the measurement columns and `AQI` to numeric.  The derived `year` column
(`df["Date"].dt.year`) is recoverable as `date.year` and not stored
twice.  Both the cleaned table and the COVID aggregate are computed from
this table. -/
def parsed_city_day (rows : List CityRow) : List CityRow2 :=
  rows.filterMap (fun r =>
    match r.date with
    | some d => some ⟨d, r.city, r.aqi.toNumeric, r.meas.map Cell.toNumeric⟩
    | none => none)

/-- Lines 65-66: the cleaned table `city_day_clean.csv` keeps only rows
with a present (coerced) AQI and a present city. -/
def city_day_clean (rows : List CityRow) : List CityRow2 :=
  (parsed_city_day rows).filter (fun r => r.aqi.isSome && r.city.isSome)

/-- Line 72: the baseline subset `2015-01-01 <= Date <= 2019-12-31` of
the parsed (pre-clean) table. -/
def preSub (rows : List CityRow) : List CityRow2 :=
  (parsed_city_day rows).filter (fun r => dateBetween ⟨2015, 1, 1⟩ ⟨2019, 12, 31⟩ r.date)

/-- Line 73: the event subset `2020-03-01 <= Date <= 2020-05-31`. -/
def covidSub (rows : List CityRow) : List CityRow2 :=
  (parsed_city_day rows).filter (fun r => dateBetween ⟨2020, 3, 1⟩ ⟨2020, 5, 31⟩ r.date)

/-- The group keys of `df.groupby("City")`: the distinct present city
values (rows with an absent city are dropped from the grouping).  pandas
additionally sorts the keys alphabetically; that key order only
influences the aggregate's order among rows with equal `aqi_drop`, which
is left unspecified, so the keys are modelled in deduplication order. -/
def groupKeys (rows : List CityRow2) : List String :=
  (rows.filterMap (fun r => r.city)).dedup

/-- The mean AQI of one city's group, with pandas mean semantics: absent
AQI values do not contribute, and a group whose AQI values are all absent
has an absent mean. -/
def cityMean (rows : List CityRow2) (c : String) : Option ℚ :=
  let vs := (rows.filter (fun r => r.city == some c)).filterMap (fun r => r.aqi)
  if vs.isEmpty then none else some (vs.sum / (vs.length : ℚ))

/-- Lines 74-75: `groupby("City")["AQI"].mean().reset_index(...)` — one
(key, mean) pair per group key. -/
def groupMeans (rows : List CityRow2) : List (String × Option ℚ) :=
  (groupKeys rows).map (fun c => (c, cityMean rows c))

/-- A row of the COVID aggregate `covid_city_aqi_change_2015_2020.csv`. -/
structure ChangeRow where
  city : String
  aqi_pre : Option ℚ
  aqi_covid : Option ℚ
  aqi_drop : Option ℚ
deriving DecidableEq, Repr

/-- Subtraction with absent-value (NaN) propagation, as in
`city_change["aqi_pre"] - city_change["aqi_covid"]`. -/
def subOpt : Option ℚ → Option ℚ → Option ℚ
  | some a, some b => some (a - b)
  | _, _ => none

/-- Line 76: `pre_avg.merge(covid_avg, on="City", how="inner")`, then
line 77 adds the `aqi_drop` column.  An inner merge keeps the left
frame's key order and drops keys missing from the right frame. -/
def mergeInner (l r : List (String × Option ℚ)) : List ChangeRow :=
  l.filterMap (fun p =>
    match List.lookup p.1 r with
    | some v => some ⟨p.1, p.2, v, subOpt p.2 v⟩
    | none => none)

/-- The descending sort key of line 78: `sort_values("aqi_drop",
ascending=False)` orders present values in non-increasing order and
places absent (NaN) values last. -/
def dropGE (a b : Option ℚ) : Bool :=
  match a, b with
  | some x, some y => decide (y ≤ x)
  | some _, none => true
  | none, some _ => false
  | none, none => true

/-- The sort relation on aggregate rows. -/
def dropRel (a b : ChangeRow) : Prop := dropGE a.aqi_drop b.aqi_drop = true

instance : DecidableRel dropRel := fun _ _ => decEq _ _

instance : IsTotal ChangeRow dropRel := by
  constructor
  intro a b
  unfold dropRel dropGE
  cases a.aqi_drop <;> cases b.aqi_drop <;> simp
  exact le_total _ _

instance : IsTrans ChangeRow dropRel := by
  constructor
  intro a b c
  unfold dropRel dropGE
  cases a.aqi_drop <;> cases b.aqi_drop <;> cases c.aqi_drop <;> simp
  exact fun h1 h2 => le_trans h2 h1

/-- Lines 72-78: the COVID aggregate.  Per-city baseline and event mean
AQI, inner-joined on city, with the drop column, sorted by drop in
non-increasing order (absent drops last). -/
def covid_city_change (rows : List CityRow) : List ChangeRow :=
  List.insertionSort dropRel
    (mergeInner (groupMeans (preSub rows)) (groupMeans (covidSub rows)))

/-! ## 4.3 Point-snapshot PM2.5 filter (`clean_india_varios`) -/

/-- `series.astype(str)` on an optional string cell: pandas renders an
absent value as the literal string `"nan"`. -/
def cellStr : Option String → String
  | some s => s
  | none => "nan"

/-- Whether a character is whitespace, for `str.strip()`. -/
def isSpaceChar (c : Char) : Bool :=
  [32, 9, 10, 13, 11, 12].contains c.toNat

/-- Python `str.strip()`: remove leading and trailing whitespace. -/
def stripChars (cs : List Char) : List Char :=
  ((cs.dropWhile isSpaceChar).reverse.dropWhile isSpaceChar).reverse

/-- ASCII uppercase of one character (pollutant ids are ASCII; pandas
compares case-insensitively under `case=False`). -/
def upChar (c : Char) : Char :=
  if decide (97 ≤ c.toNat) && decide (c.toNat ≤ 122) then Char.ofNat (c.toNat - 32) else c

/-- Whether the pattern occurs at the head of the text. -/
def beginsWith : List Char → List Char → Bool
  | [], _ => true
  | _ :: _, [] => false
  | p :: ps, c :: cs => p == c && beginsWith ps cs

/-- Whether the pattern occurs anywhere in the text (substring test). -/
def containsSeq (pat : List Char) : List Char → Bool
  | [] => beginsWith pat []
  | c :: cs => beginsWith pat (c :: cs) || containsSeq pat cs

/-- `.str.strip()` followed by `.str.contains("PM2", case=False,
na=False)` on the string form of a pollutant-id cell. -/
def containsPM2 (s : String) : Bool :=
  containsSeq ['P', 'M', '2'] ((stripChars s.data).map upChar)

/-- A row of `india_varios.csv`: the `pollutant_id` cell as an optional
string, the `pollutant_avg` cell, and the `latitude` / `longitude`
cells.  `latitude` and `longitude` are never numerically coerced by this
routine, so they stay raw cells. -/
structure VarRow where
  pid : Option String
  pollutant_avg : Cell
  latitude : Cell
  longitude : Cell
deriving DecidableEq, Repr

/-- An output row of the PM2.5 snapshot: the original `pollutant_id`, the
coerced `pm25` value (renamed from `pollutant_avg`), and the raw
coordinates. -/
structure VarOut where
  pid : Option String
  pm25 : Option ℚ
  latitude : Cell
  longitude : Cell
deriving DecidableEq, Repr

/-- `clean_india_varios` on a loaded frame: keep rows whose stripped
`pollutant_id` (as a string, absent rendered `"nan"`) contains `"PM2"`
case-insensitively, rename `pollutant_avg` to `pm25` (after which the
fallback branch of lines 95-96 cannot fire), coerce `pm25` to numeric,
and drop rows missing `pm25`, `latitude` or `longitude`. -/
def clean_india_varios (rows : List VarRow) : List VarOut :=
  let f1 := rows.filter (fun r => containsPM2 (cellStr r.pid))
  let mapped := f1.map (fun r => VarOut.mk r.pid r.pollutant_avg.toNumeric r.latitude r.longitude)
  mapped.filter (fun r => r.pm25.isSome && !r.latitude.isAbsent && !r.longitude.isAbsent)

/-! ## 4.4 Major-city hourly cleaner (`clean_major_city`) -/

/-- A row of `major_city.csv`: parse results of the `Datetime` and `Date`
columns (whichever the file has; only the chosen one is read), the `AQI`
cell, and the other measurement cells of the coercion list. -/
structure MajorRow where
  dtVal : Option Date
  dateVal : Option Date
  aqi : Cell
  meas : List Cell
deriving DecidableEq, Repr

/-- The major-city frame: whether a `Datetime` column is present
(`date_col = "Datetime" if "Datetime" in df.columns else "Date"`). -/
structure MajorFrame where
  hasDatetime : Bool
  rows : List MajorRow
deriving DecidableEq, Repr

/-- The value of the chosen datetime column of a row, after parsing. -/
def chosenDt (hasDatetime : Bool) (r : MajorRow) : Option Date :=
  if hasDatetime then r.dtVal else r.dateVal

/-- An output row of the major-city cleaner. -/
structure MajorOut where
  dt : Date
  aqi : Option ℚ
  meas : List (Option ℚ)
deriving DecidableEq, Repr

/-- `clean_major_city` on a loaded frame: parse the chosen datetime
column, drop rows where it or `AQI` is null (before any numeric
coercion), then coerce the measurement columns and `AQI`. -/
def clean_major_city (f : MajorFrame) : List MajorOut :=
  (f.rows.filter (fun r => (chosenDt f.hasDatetime r).isSome && !r.aqi.isAbsent)).filterMap
    (fun r =>
      match chosenDt f.hasDatetime r with
      | some d => some ⟨d, r.aqi.toNumeric, r.meas.map Cell.toNumeric⟩
      | none => none)

/-! ## 4.5 Historical India dataset cleaner (`clean_India_dataset`) -/

/-- A row of `India_dataset.csv`: the parsed `date`, the `sampling_date`
kept as an opaque string (absent rendered `"nan"` by `astype(str)`), and
the five pollutant cells `so2, no2, rspm, spm, pm2_5` as a list, coerced
uniformly.  The frame-level drop of entirely-absent columns
(`dropna(how="all", axis=1)`) removes column headers, not row values, and
is not modelled. -/
structure IndiaRow where
  date : Option Date
  sampling_date : Option String
  pols : List Cell
deriving DecidableEq, Repr

/-- An output row of the historical cleaner. -/
structure IndiaOut where
  date : Option Date
  sampling_date : String
  pols : List (Option ℚ)
deriving DecidableEq, Repr

/-- `clean_India_dataset` on loaded rows: dates are already parsed,
`sampling_date` becomes a string, pollutant cells are coerced. -/
def clean_India_dataset (rows : List IndiaRow) : List IndiaOut :=
  rows.map (fun r => ⟨r.date, cellStr r.sampling_date, r.pols.map Cell.toNumeric⟩)

/-! ## 4.6 Generic processed-AQI normalizer (`clean_processed_aqi_data`) -/

/-- A row of `processed_aqi_data.csv`: the parsed `timestamp` and the ten
numeric columns (`pm25, pm10, co, no2, o3, so2, aqi, hour, day, month,
year`) as a uniformly-coerced list. -/
structure ProcRow where
  timestamp : Option Date
  vals : List Cell
deriving DecidableEq, Repr

/-- An output row of the normalizer: no row filtering, types only. -/
structure ProcOut where
  timestamp : Option Date
  vals : List (Option ℚ)
deriving DecidableEq, Repr

/-- `clean_processed_aqi_data` on loaded rows. -/
def clean_processed_aqi_data (rows : List ProcRow) : List ProcOut :=
  rows.map (fun r => ⟨r.timestamp, r.vals.map Cell.toNumeric⟩)

/-! ## 4.7 Geospatial boundary passthrough (`copy_geojson`) -/

/-- The boundary file as opaque byte content. -/
def GeoFile : Type := List ℕ

instance : DecidableEq GeoFile := inferInstanceAs (DecidableEq (List ℕ))

/-- `shutil.copy2`: byte-for-byte duplication. -/
def copy_geojson (g : GeoFile) : GeoFile := g

/-! ## The driver (`main`)

The filesystem is modelled by which raw files exist and, when they do,
their loaded contents.  Each component either saves its output table or
reports a skip notice; the `city_day.csv` frame additionally records
which of the three unconditionally-referenced columns (`Date`, `City`,
`AQI`) are present, since accessing a missing column raises an uncaught
`KeyError` that aborts the whole run (modelled with `Except`). -/

/-- The outcome of one component: an output file was written, or the
component skipped with a notice. -/
inductive Step (α : Type) where
  | saved : α → Step α
  | skipped : String → Step α
deriving DecidableEq, Repr

/-- The `city_day.csv` file: column-presence flags for the three columns
the routine references unconditionally, plus the rows (whose fields are
meaningful when the corresponding column exists). -/
structure CityFile where
  hasDate : Bool
  hasCity : Bool
  hasAQI : Bool
  rows : List CityRow
deriving DecidableEq, Repr

/-- The raw `data/raw/` directory: each fixed filename is present with
loaded contents, or absent. -/
structure RawFS where
  delhi_ncr_aqi : Option DelhiFrame
  delhi_ncr_aqi_dataset : Option DelhiFrame
  city_day : Option CityFile
  india_varios : Option (List VarRow)
  major_city : Option MajorFrame
  india_dataset : Option (List IndiaRow)
  processed_aqi_data : Option (List ProcRow)
  india_states_geojson : Option GeoFile

/-- Lines 22-47: `clean_delhi_ncr_aqi` prefers `delhi_ncr_aqi.csv`, falls
back to `delhi_ncr_aqi_dataset.csv`, and skips when neither exists. -/
def run_delhi (fs : RawFS) : Step (List DelhiOut) :=
  match fs.delhi_ncr_aqi with
  | some f => .saved (clean_delhi_ncr_aqi f)
  | none =>
    match fs.delhi_ncr_aqi_dataset with
    | some f => .saved (clean_delhi_ncr_aqi f)
    | none => .skipped "Skip delhi_ncr: no raw file found (delhi_ncr_aqi.csv or delhi_ncr_aqi_dataset.csv)"

/-- `clean_city_day` with its failure modes: a missing file skips; a
present file missing one of the three unconditionally-referenced columns
raises `KeyError` (accesses happen in source order: `Date` at line 57,
`AQI` via `dropna(subset=["AQI"])` at line 65, `City` at line 66). -/
def run_city_day (fs : RawFS) : Except String (Step (List CityRow2 × List ChangeRow)) :=
  match fs.city_day with
  | none => .ok (.skipped "Skip city_day: file not found")
  | some f =>
    if f.hasDate = false then .error "KeyError: Date"
    else if f.hasAQI = false then .error "KeyError: AQI"
    else if f.hasCity = false then .error "KeyError: City"
    else .ok (.saved (city_day_clean f.rows, covid_city_change f.rows))

/-- Lines 86-101. -/
def run_india_varios (fs : RawFS) : Step (List VarOut) :=
  match fs.india_varios with
  | some rows => .saved (clean_india_varios rows)
  | none => .skipped "Skip india_varios: file not found"

/-- Lines 106-119. -/
def run_major_city (fs : RawFS) : Step (List MajorOut) :=
  match fs.major_city with
  | some f => .saved (clean_major_city f)
  | none => .skipped "Skip major_city: file not found"

/-- Lines 124-139. -/
def run_india_dataset (fs : RawFS) : Step (List IndiaOut) :=
  match fs.india_dataset with
  | some rows => .saved (clean_India_dataset rows)
  | none => .skipped "Skip India_dataset: file not found"

/-- Lines 144-156. -/
def run_processed_aqi (fs : RawFS) : Step (List ProcOut) :=
  match fs.processed_aqi_data with
  | some rows => .saved (clean_processed_aqi_data rows)
  | none => .skipped "Skip processed_aqi_data: file not found"

/-- Lines 159-167. -/
def run_geojson (fs : RawFS) : Step GeoFile :=
  match fs.india_states_geojson with
  | some g => .saved (copy_geojson g)
  | none => .skipped "Skip india_states.geojson: file not found"

/-- The per-component outcomes of one full run. -/
structure RunOutputs where
  delhi : Step (List DelhiOut)
  cityDay : Step (List CityRow2 × List ChangeRow)
  varios : Step (List VarOut)
  majorCity : Step (List MajorOut)
  indiaDataset : Step (List IndiaOut)
  processedAqi : Step (List ProcOut)
  geojson : Step GeoFile

/-- `main` (lines 170-180): the seven components run in sequence; no
exception is caught, so an uncaught `KeyError` from `clean_city_day`
aborts the run before the remaining components execute. -/
def main_run (fs : RawFS) : Except String RunOutputs :=
  let d := run_delhi fs
  match run_city_day fs with
  | .error e => .error e
  | .ok c =>
    .ok ⟨d, c, run_india_varios fs, run_major_city fs, run_india_dataset fs,
      run_processed_aqi fs, run_geojson fs⟩

/-- A run together with ambient run-specific state (a clock value,
say).  The script never reads any such state — no timestamps, no
randomness, no environment beyond the raw files — so the run is a
function of the raw directory alone. -/
def main_run_at (fs : RawFS) (_runState : ℕ) : Except String RunOutputs :=
  main_run fs

/-! ## Claims -/

/-- Split a boolean conjunction hypothesis. -/
theorem band_true {a b : Bool} (h : (a && b) = true) : a = true ∧ b = true := by
  simp_all

/-- A cell that is non-null and not unparseable coerces to a present
numeric value. -/
theorem cell_toNumeric_isSome (c : Cell) (h1 : c.isAbsent = false)
    (h2 : c ≠ Cell.nonnum) : c.toNumeric.isSome = true := by
  cases c <;> simp_all [Cell.isAbsent, Cell.toNumeric]

/-- A Delhi-NCR input whose single row has a non-null, non-numeric `aqi`
cell and a numeric `pm25`: the row survives the null filter (line 33 runs
before numeric coercion) but its `aqi` is absent in the output. -/
def delhiBadFrame : DelhiFrame := ⟨false, [⟨Cell.nonnum, Cell.num 1, none, []⟩]⟩

/-- **C1** (counterexample): it is not the case that every output row of
the Delhi-NCR cleaner has present AQI and PM2.5 values — a non-null
unparseable `aqi` cell passes the `dropna` of line 33 and only afterwards
becomes absent under `pd.to_numeric(errors="coerce")` (line 42). -/
theorem c1_delhi_counterexample :
    (clean_delhi_ncr_aqi delhiBadFrame).all
      (fun r => r.aqi.isSome && r.pm25.isSome) = false := by
  rfl

/-- **C1** (amended): provided every raw `aqi` and `pm25` value is
numeric wherever non-null, each output row of the Delhi-NCR cleaner has
present AQI and PM2.5, and when the input has a `year` column each output
row's year is present and within [2020, 2024]. -/
theorem c1_delhi_amended (f : DelhiFrame)
    (hnum : ∀ r ∈ f.rows, r.aqi ≠ Cell.nonnum ∧ r.pm25 ≠ Cell.nonnum) :
    ∀ r ∈ clean_delhi_ncr_aqi f,
      r.aqi.isSome = true ∧ r.pm25.isSome = true ∧
        (f.hasYear = true → ∃ y, r.year = some y ∧ (2020 : ℚ) ≤ y ∧ y ≤ 2024) := by
  intro r hr
  unfold clean_delhi_ncr_aqi at hr
  cases hval : f.hasYear with
  | true =>
    rw [hval] at hr
    simp only [if_true, List.mem_map, List.mem_filter] at hr
    obtain ⟨r0, ⟨⟨hr0, hpres⟩, hyear⟩, rfl⟩ := hr
    obtain ⟨hp1, hp2⟩ := band_true hpres
    obtain ⟨ha, hb⟩ := hnum r0 hr0
    refine ⟨cell_toNumeric_isSome _ (by simpa using hp1) ha,
      cell_toNumeric_isSome _ (by simpa using hp2) hb, fun _ => ?_⟩
    cases hy : r0.year with
    | some y =>
      rw [hy] at hyear
      obtain ⟨h1, h2⟩ := band_true hyear
      exact ⟨y, rfl, of_decide_eq_true h1, of_decide_eq_true h2⟩
    | none => rw [hy] at hyear; exact absurd hyear (by simp)
  | false =>
    rw [hval] at hr
    simp only [Bool.false_eq_true, if_false, List.mem_map, List.mem_filter] at hr
    obtain ⟨r0, ⟨hr0, hpres⟩, rfl⟩ := hr
    obtain ⟨hp1, hp2⟩ := band_true hpres
    obtain ⟨ha, hb⟩ := hnum r0 hr0
    exact ⟨cell_toNumeric_isSome _ (by simpa using hp1) ha,
      cell_toNumeric_isSome _ (by simpa using hp2) hb,
      fun hc => absurd hc (by simp [hval])⟩

/-- A well-formed Delhi-NCR input for the C1 witness. -/
def delhiGoodFrame : DelhiFrame :=
  ⟨true, [⟨Cell.num 50, Cell.num 12, some 2021, [Cell.absent]⟩,
          ⟨Cell.absent, Cell.num 3, some 2021, []⟩,
          ⟨Cell.num 9, Cell.num 4, some 1999, []⟩]⟩

/-- **C1** (witness): the amended theorem applied at a concrete frame. -/
theorem c1_delhi_amended_witness :
    (∀ r ∈ delhiGoodFrame.rows, r.aqi ≠ Cell.nonnum ∧ r.pm25 ≠ Cell.nonnum) ∧
      (∀ r ∈ clean_delhi_ncr_aqi delhiGoodFrame,
        r.aqi.isSome = true ∧ r.pm25.isSome = true ∧
          (delhiGoodFrame.hasYear = true →
            ∃ y, r.year = some y ∧ (2020 : ℚ) ≤ y ∧ y ≤ 2024)) :=
  ⟨by decide, c1_delhi_amended delhiGoodFrame (by decide)⟩

/-- A major-city input whose single row has a parsed datetime and a
non-null, non-numeric `AQI` cell: it survives the `dropna` of line 113
but its AQI is absent in the output after coercion (line 116). -/
def majorBadFrame : MajorFrame := ⟨true, [⟨some ⟨2020, 1, 1⟩, none, Cell.nonnum, []⟩]⟩

/-- **C3** (counterexample): it is not the case that every output row of
the major-city cleaner has a present AQI value — the null filter of line
113 runs before the numeric coercion of line 116. -/
theorem c3_major_counterexample :
    (clean_major_city majorBadFrame).all (fun r => r.aqi.isSome) = false := by
  rfl

/-- **C3** (amended): every output row of the major-city cleaner carries
the successfully parsed value of the chosen datetime column (the primary
`Datetime` column when present, else `Date`) of some input row, and,
provided every raw `AQI` value is numeric wherever non-null, a present
AQI value. -/
theorem c3_major_amended (f : MajorFrame)
    (hnum : ∀ r ∈ f.rows, r.aqi ≠ Cell.nonnum) :
    ∀ r ∈ clean_major_city f,
      r.aqi.isSome = true ∧ ∃ r0 ∈ f.rows, chosenDt f.hasDatetime r0 = some r.dt := by
  intro r hr
  unfold clean_major_city at hr
  simp only [List.mem_filterMap, List.mem_filter] at hr
  obtain ⟨r0, ⟨hr0, hpres⟩, hmk⟩ := hr
  obtain ⟨_, hp2⟩ := band_true hpres
  match hdt : chosenDt f.hasDatetime r0 with
  | some d =>
    rw [hdt] at hmk
    obtain rfl := Option.some_injective _ hmk
    exact ⟨cell_toNumeric_isSome _ (by simpa using hp2) (hnum r0 hr0), r0, hr0, hdt⟩
  | none => rw [hdt] at hmk; exact absurd hmk (by simp)

/-- A well-formed major-city input for the C3 witness. -/
def majorGoodFrame : MajorFrame :=
  ⟨false, [⟨none, some ⟨2019, 5, 2⟩, Cell.num 77, [Cell.nonnum]⟩,
           ⟨none, none, Cell.num 5, []⟩,
           ⟨none, some ⟨2019, 5, 3⟩, Cell.absent, []⟩]⟩

/-- **C3** (witness): the amended theorem applied at a concrete frame. -/
theorem c3_major_amended_witness :
    (∀ r ∈ majorGoodFrame.rows, r.aqi ≠ Cell.nonnum) ∧
      (∀ r ∈ clean_major_city majorGoodFrame,
        r.aqi.isSome = true ∧
          ∃ r0 ∈ majorGoodFrame.rows, chosenDt majorGoodFrame.hasDatetime r0 = some r.dt) :=
  ⟨by decide, c3_major_amended majorGoodFrame (by decide)⟩

/-- **C6**: every row of the cleaned city-day table has a present
(coerced) AQI value and a present city identifier; in particular no
parsed input row whose AQI is absent after numeric coercion reaches the
cleaned output, since the output filter of lines 65-66 runs after the
coercion of lines 61-63. -/
theorem c6_city_day_clean (rows : List CityRow) :
    ∀ r ∈ city_day_clean rows, r.aqi.isSome = true ∧ r.city.isSome = true := by
  intro r hr
  unfold city_day_clean at hr
  rw [List.mem_filter] at hr
  exact band_true hr.2

/-- **C7**: every output row of the PM2.5 snapshot filter has an original
`pollutant_id` whose string form, stripped, contains `"PM2"`
case-insensitively, a present coerced `pm25` value, and non-absent
latitude and longitude cells. -/
theorem c7_india_varios (rows : List VarRow) :
    ∀ r ∈ clean_india_varios rows,
      containsPM2 (cellStr r.pid) = true ∧ r.pm25.isSome = true ∧
        r.latitude.isAbsent = false ∧ r.longitude.isAbsent = false := by
  intro r hr
  unfold clean_india_varios at hr
  simp only [List.mem_filter, List.mem_map] at hr
  obtain ⟨⟨r0, ⟨hr0, hpid⟩, rfl⟩, hkeep⟩ := hr
  obtain ⟨h12, h3⟩ := band_true hkeep
  obtain ⟨h1, h2⟩ := band_true h12
  exact ⟨hpid, h1, by simpa using h2, by simpa using h3⟩

/-- The C6 witness input: one fully-present row, one row with an absent
city, one row with an unparseable date. -/
def c6rows : List CityRow :=
  [⟨some ⟨2018, 1, 1⟩, some "D", Cell.num 42, []⟩,
   ⟨some ⟨2018, 1, 2⟩, none, Cell.num 7, []⟩,
   ⟨none, some "D", Cell.num 3, []⟩]

/-- **C6** (witness): the theorem applied at a concrete input and a
concrete member of its cleaned output. -/
theorem c6_city_day_clean_witness :
    (⟨⟨2018, 1, 1⟩, some "D", some 42, []⟩ : CityRow2).aqi.isSome = true ∧
      (⟨⟨2018, 1, 1⟩, some "D", some 42, []⟩ : CityRow2).city.isSome = true := by
  have hmem : (⟨⟨2018, 1, 1⟩, some "D", some 42, []⟩ : CityRow2) ∈
      city_day_clean c6rows := by
    have h : city_day_clean c6rows = [⟨⟨2018, 1, 1⟩, some "D", some 42, []⟩] := rfl
    rw [h]
    exact List.mem_cons_self _ _
  exact c6_city_day_clean c6rows _ hmem

/-- The C7 witness input: one PM2.5 row (oddly-cased, padded id), one
other-pollutant row, one row with an absent id. -/
def c7rows : List VarRow :=
  [⟨some " pm2.5 ", Cell.num 31, Cell.num 28, Cell.num 77⟩,
   ⟨some "NO2", Cell.num 12, Cell.num 28, Cell.num 77⟩,
   ⟨none, Cell.num 9, Cell.num 1, Cell.num 2⟩]

/-- **C7** (witness): the theorem applied at a concrete input and a
concrete member of its output. -/
theorem c7_india_varios_witness :
    containsPM2 (cellStr (some " pm2.5 ")) = true ∧
      (some (31 : ℚ)).isSome = true ∧
      (Cell.num 28).isAbsent = false ∧ (Cell.num 77).isAbsent = false := by
  have hmem : (⟨some " pm2.5 ", some 31, Cell.num 28, Cell.num 77⟩ : VarOut) ∈
      clean_india_varios c7rows := by
    have h : clean_india_varios c7rows =
        [⟨some " pm2.5 ", some 31, Cell.num 28, Cell.num 77⟩] := rfl
    rw [h]
    exact List.mem_cons_self _ _
  exact c7_india_varios c7rows _ hmem

/-- **C4**: the aggregate is sorted by `aqi_drop` in non-increasing
order: for any row appearing before another, present drop values are
non-increasing and an absent (NaN) drop is never followed by a present
one.  The embedding is a pure function of the input rows, so the order
(including among equal drop values) is deterministic for a fixed
input. -/
theorem c4_aggregate_sorted (rows : List CityRow) :
    (covid_city_change rows).Pairwise
      (fun a b => (∀ x y, a.aqi_drop = some x → b.aqi_drop = some y → y ≤ x) ∧
        (a.aqi_drop = none → b.aqi_drop = none)) := by
  unfold covid_city_change
  refine List.Pairwise.imp ?_ (List.sorted_insertionSort dropRel _)
  intro a b hab
  unfold dropRel dropGE at hab
  constructor
  · intro x y hx hy
    rw [hx, hy] at hab
    exact of_decide_eq_true hab
  · intro hnone
    rw [hnone] at hab
    cases hbd : b.aqi_drop with
    | none => rfl
    | some _ => rw [hbd] at hab; cases hab

/-- The mean of a series, pandas semantics: absent for an empty series. -/
def mean (vs : List ℚ) : Option ℚ :=
  if vs.isEmpty then none else some (vs.sum / (vs.length : ℚ))

/-- `cityMean` expressed through `mean`. -/
theorem cityMean_eq_mean (rows : List CityRow2) (c : String) :
    cityMean rows c =
      mean ((rows.filter (fun r => r.city == some c)).filterMap (fun r => r.aqi)) := rfl

/-- A city's mean is present exactly when the city has at least one row
with a present AQI in the subset. -/
theorem mean_isSome (vs : List ℚ) : (mean vs).isSome = true ↔ vs ≠ [] := by
  cases vs <;> simp [mean]

theorem cityMean_isSome (rows : List CityRow2) (c : String) :
    (cityMean rows c).isSome = true ↔
      ∃ r ∈ rows, r.city = some c ∧ r.aqi.isSome = true := by
  rw [cityMean_eq_mean, mean_isSome]
  constructor
  · intro hne
    obtain ⟨q, hq⟩ := List.exists_mem_of_ne_nil _ hne
    obtain ⟨r, hrf, hqr⟩ := List.mem_filterMap.mp hq
    obtain ⟨hr, hcty⟩ := List.mem_filter.mp hrf
    exact ⟨r, hr, by simpa using hcty, by simp [hqr]⟩
  · rintro ⟨r, hr, hc, hq⟩
    obtain ⟨q, hq'⟩ := Option.isSome_iff_exists.mp hq
    intro hnil
    have hmem : q ∈ (rows.filter (fun r => r.city == some c)).filterMap
        (fun r => r.aqi) :=
      List.mem_filterMap.mpr ⟨r, List.mem_filter.mpr ⟨hr, by simp [hc]⟩, hq'⟩
    rw [hnil] at hmem
    cases hmem

/-- `List.lookup` over a key-indexed map of means. -/
theorem lookup_keys_map (m : String → Option ℚ) (c : String) (keys : List String) :
    List.lookup c (keys.map (fun k => (k, m k))) =
      if c ∈ keys then some (m c) else none := by
  induction keys with
  | nil => simp
  | cons k ks ih =>
    by_cases hck : c = k
    · subst hck
      simp [List.lookup]
    · simp [List.lookup, hck, beq_false_of_ne hck, ih]

/-- `List.lookup` on `groupMeans`. -/
theorem lookup_groupMeans (rows : List CityRow2) (c : String) :
    List.lookup c (groupMeans rows) =
      if c ∈ groupKeys rows then some (cityMean rows c) else none := by
  unfold groupMeans
  exact lookup_keys_map _ _ _

/-- Membership in the group keys is presence of the city in the subset. -/
theorem mem_groupKeys (rows : List CityRow2) (c : String) :
    c ∈ groupKeys rows ↔ ∃ r ∈ rows, r.city = some c := by
  unfold groupKeys
  simp [List.mem_dedup, List.mem_filterMap]

/-- Group keys are distinct. -/
theorem groupKeys_nodup (rows : List CityRow2) : (groupKeys rows).Nodup :=
  List.nodup_dedup _

/-- The keys of `groupMeans`. -/
theorem groupMeans_fst (rows : List CityRow2) :
    (groupMeans rows).map Prod.fst = groupKeys rows := by
  unfold groupMeans
  induction groupKeys rows with
  | nil => rfl
  | cons k ks ih => simp_all

/-- The cities of an inner merge form a sublist of the left keys. -/
theorem mergeInner_cities_sublist (l r : List (String × Option ℚ)) :
    ((mergeInner l r).map (fun p => p.city)).Sublist (l.map Prod.fst) := by
  induction l with
  | nil => simp [mergeInner]
  | cons p l ih =>
    unfold mergeInner at ih ⊢
    cases h : List.lookup p.1 r with
    | some v =>
      simp only [List.filterMap_cons, h, List.map_cons]
      exact ih.cons₂ p.1
    | none =>
      simp only [List.filterMap_cons, h, List.map_cons]
      exact ih.cons p.1

/-- Any row of the merged aggregate carries its city's two means and
their difference, and its city is a key of both periods. -/
theorem mem_mergeInner_groupMeans (pre cov : List CityRow2) (r : ChangeRow)
    (hr : r ∈ mergeInner (groupMeans pre) (groupMeans cov)) :
    r.city ∈ groupKeys pre ∧ r.city ∈ groupKeys cov ∧
      r.aqi_pre = cityMean pre r.city ∧ r.aqi_covid = cityMean cov r.city ∧
      r.aqi_drop = subOpt r.aqi_pre r.aqi_covid := by
  unfold mergeInner at hr
  obtain ⟨p, hp, hg⟩ := List.mem_filterMap.mp hr
  cases hlk : List.lookup p.1 (groupMeans cov) with
  | none => rw [hlk] at hg; cases hg
  | some v =>
    rw [hlk] at hg
    obtain rfl := Option.some_injective _ hg
    unfold groupMeans at hp
    obtain ⟨k, hk, rfl⟩ := List.mem_map.mp hp
    rw [lookup_groupMeans] at hlk
    by_cases hmem : k ∈ groupKeys cov
    · rw [if_pos hmem] at hlk
      obtain rfl := Option.some_injective _ hlk
      exact ⟨hk, hmem, rfl, rfl, rfl⟩
    · rw [if_neg hmem] at hlk
      cases hlk

/-- A city present in both key sets yields a merged row. -/
theorem exists_mem_mergeInner (pre cov : List CityRow2) (c : String)
    (h1 : c ∈ groupKeys pre) (h2 : c ∈ groupKeys cov) :
    ∃ r ∈ mergeInner (groupMeans pre) (groupMeans cov), r.city = c := by
  refine ⟨⟨c, cityMean pre c, cityMean cov c,
    subOpt (cityMean pre c) (cityMean cov c)⟩, ?_, rfl⟩
  unfold mergeInner
  refine List.mem_filterMap.mpr ⟨(c, cityMean pre c), ?_, ?_⟩
  · unfold groupMeans
    exact List.mem_map.mpr ⟨c, h1, rfl⟩
  · rw [lookup_groupMeans, if_pos h2]

/-- A city-day input whose city "X" has one baseline-period row with an
absent AQI (so its baseline mean is NaN) and one event-period row with
AQI 5: the aggregate keeps the city (it has rows in both subsets) but its
baseline mean and change value are absent — a partial row. -/
def c2rows : List CityRow :=
  [⟨some ⟨2015, 6, 1⟩, some "X", Cell.absent, []⟩,
   ⟨some ⟨2020, 4, 1⟩, some "X", Cell.num 5, []⟩]

/-- **C2** (counterexample): it is not the case that no aggregate row has
an absent baseline-mean or change value — a city whose subset rows all
have absent AQI still forms a group, with a NaN mean. -/
theorem c2_counterexample :
    (covid_city_change c2rows).map (fun r => (r.aqi_pre, r.aqi_drop)) =
      [(none, none)] := by
  rfl

/-- **C2** (amended): the aggregate has exactly one row per city present
(with a present identifier) in both the baseline and event subsets of the
date-parsed input; each row carries the per-city mean of each subset and
their difference, but a mean (and hence the change) is present only when
the city has at least one present AQI value in that subset — rows of a
city whose AQI values are all absent in one subset are partial. -/
theorem c2_city_aggregate (rows : List CityRow) :
    ((covid_city_change rows).map (fun r => r.city)).Nodup ∧
      (∀ c, (∃ r ∈ covid_city_change rows, r.city = c) ↔
        ((∃ r ∈ preSub rows, r.city = some c) ∧
          (∃ r ∈ covidSub rows, r.city = some c))) ∧
      (∀ r ∈ covid_city_change rows,
        r.aqi_pre = cityMean (preSub rows) r.city ∧
        r.aqi_covid = cityMean (covidSub rows) r.city ∧
        r.aqi_drop = subOpt r.aqi_pre r.aqi_covid ∧
        (r.aqi_pre.isSome = true ↔
          ∃ r2 ∈ preSub rows, r2.city = some r.city ∧ r2.aqi.isSome = true) ∧
        (r.aqi_covid.isSome = true ↔
          ∃ r2 ∈ covidSub rows, r2.city = some r.city ∧ r2.aqi.isSome = true)) := by
  have hperm : List.Perm (covid_city_change rows)
      (mergeInner (groupMeans (preSub rows)) (groupMeans (covidSub rows))) :=
    List.perm_insertionSort dropRel _
  refine ⟨?_, ?_, ?_⟩
  · refine (hperm.map (fun r => r.city)).nodup_iff.mpr ?_
    exact List.Nodup.sublist (mergeInner_cities_sublist _ _)
      (groupMeans_fst (preSub rows) ▸ groupKeys_nodup (preSub rows))
  · intro c
    constructor
    · rintro ⟨r, hr, rfl⟩
      obtain ⟨h1, h2, _⟩ := mem_mergeInner_groupMeans _ _ r (hperm.mem_iff.mp hr)
      exact ⟨(mem_groupKeys _ _).mp h1, (mem_groupKeys _ _).mp h2⟩
    · rintro ⟨h1, h2⟩
      obtain ⟨r, hr, hc⟩ := exists_mem_mergeInner _ _ c
        ((mem_groupKeys _ _).mpr h1) ((mem_groupKeys _ _).mpr h2)
      exact ⟨r, hperm.mem_iff.mpr hr, hc⟩
  · intro r hr
    obtain ⟨_, _, hpre, hcov, hdrop⟩ :=
      mem_mergeInner_groupMeans _ _ r (hperm.mem_iff.mp hr)
    refine ⟨hpre, hcov, hdrop, ?_, ?_⟩
    · rw [hpre]; exact cityMean_isSome _ _
    · rw [hcov]; exact cityMean_isSome _ _

/-- **C5**: for any city-day input whose baseline subset has exactly the
cities "A" and "B", whose event subset has exactly the city "A", and
where city "A" has baseline mean AQI 150 and event mean AQI 80, the
aggregate is the single row for "A" with `aqi_drop = 70`. -/
theorem c5_example (rows : List CityRow)
    (hkPre : groupKeys (preSub rows) = ["A", "B"])
    (hkCov : groupKeys (covidSub rows) = ["A"])
    (hmPre : cityMean (preSub rows) "A" = some 150)
    (hmCov : cityMean (covidSub rows) "A" = some 80) :
    covid_city_change rows = [⟨"A", some 150, some 80, some 70⟩] := by
  unfold covid_city_change
  have hL : groupMeans (preSub rows) =
      [("A", some 150), ("B", cityMean (preSub rows) "B")] := by
    unfold groupMeans
    rw [hkPre]
    simp [hmPre]
  have hR : groupMeans (covidSub rows) = [("A", some 80)] := by
    unfold groupMeans
    rw [hkCov]
    simp [hmCov]
  have h70 : subOpt (some 150) (some 80) = some 70 := by
    unfold subOpt
    norm_num
  rw [hL, hR]
  simp [mergeInner, List.lookup, h70]

/-- The C5 witness input: city "A" with one baseline row (AQI 150) and
one event row (AQI 80); city "B" with one baseline row only. -/
def c5rows : List CityRow :=
  [⟨some ⟨2016, 1, 1⟩, some "A", Cell.num 150, []⟩,
   ⟨some ⟨2020, 4, 1⟩, some "A", Cell.num 80, []⟩,
   ⟨some ⟨2016, 2, 1⟩, some "B", Cell.num 100, []⟩]

/-- **C5** (witness): the example theorem applied at a concrete input. -/
theorem c5_example_witness :
    groupKeys (preSub c5rows) = ["A", "B"] ∧
      groupKeys (covidSub c5rows) = ["A"] ∧
      cityMean (preSub c5rows) "A" = some 150 ∧
      cityMean (covidSub c5rows) "A" = some 80 ∧
      covid_city_change c5rows = [⟨"A", some 150, some 80, some 70⟩] := by
  have h1 : groupKeys (preSub c5rows) = ["A", "B"] := rfl
  have h2 : groupKeys (covidSub c5rows) = ["A"] := rfl
  have hv3 : ((preSub c5rows).filter (fun r => r.city == some "A")).filterMap
      (fun r => r.aqi) = [150] := rfl
  have hv4 : ((covidSub c5rows).filter (fun r => r.city == some "A")).filterMap
      (fun r => r.aqi) = [80] := rfl
  have h3 : cityMean (preSub c5rows) "A" = some 150 := by
    rw [cityMean_eq_mean, hv3]
    norm_num [mean]
  have h4 : cityMean (covidSub c5rows) "A" = some 80 := by
    rw [cityMean_eq_mean, hv4]
    norm_num [mean]
  exact ⟨h1, h2, h3, h4, c5_example c5rows h1 h2 h3 h4⟩

/-- The empty raw directory: no input file exists. -/
def emptyFS : RawFS := ⟨none, none, none, none, none, none, none, none⟩

/-- **C8**: for each of the seven components, a missing designated input
file (for the Delhi-NCR cleaner, both candidate files missing) produces a
skip outcome carrying the notice that names the missing input, and no
output; and the driver's outcome record is assembled from every
component's own run on the raw directory, so a skipped component never
stops the subsequent ones. -/
theorem c8_missing_input_skips (fs : RawFS) :
    (fs.delhi_ncr_aqi = none → fs.delhi_ncr_aqi_dataset = none →
      run_delhi fs = .skipped
        "Skip delhi_ncr: no raw file found (delhi_ncr_aqi.csv or delhi_ncr_aqi_dataset.csv)") ∧
    (fs.city_day = none →
      run_city_day fs = .ok (.skipped "Skip city_day: file not found")) ∧
    (fs.india_varios = none →
      run_india_varios fs = .skipped "Skip india_varios: file not found") ∧
    (fs.major_city = none →
      run_major_city fs = .skipped "Skip major_city: file not found") ∧
    (fs.india_dataset = none →
      run_india_dataset fs = .skipped "Skip India_dataset: file not found") ∧
    (fs.processed_aqi_data = none →
      run_processed_aqi fs = .skipped "Skip processed_aqi_data: file not found") ∧
    (fs.india_states_geojson = none →
      run_geojson fs = .skipped "Skip india_states.geojson: file not found") ∧
    main_run fs = (run_city_day fs).map (fun c =>
      ⟨run_delhi fs, c, run_india_varios fs, run_major_city fs,
        run_india_dataset fs, run_processed_aqi fs, run_geojson fs⟩) := by
  refine ⟨?_, ?_, ?_, ?_, ?_, ?_, ?_, ?_⟩
  · intro h1 h2
    unfold run_delhi
    rw [h1, h2]
  · intro h
    unfold run_city_day
    rw [h]
  · intro h
    unfold run_india_varios
    rw [h]
  · intro h
    unfold run_major_city
    rw [h]
  · intro h
    unfold run_india_dataset
    rw [h]
  · intro h
    unfold run_processed_aqi
    rw [h]
  · intro h
    unfold run_geojson
    rw [h]
  · unfold main_run
    cases run_city_day fs <;> rfl

/-- **C8** (witness): the skip theorem applied to the empty directory. -/
theorem c8_missing_input_skips_witness :
    run_delhi emptyFS = .skipped
        "Skip delhi_ncr: no raw file found (delhi_ncr_aqi.csv or delhi_ncr_aqi_dataset.csv)" ∧
      run_city_day emptyFS = .ok (.skipped "Skip city_day: file not found") ∧
      run_india_varios emptyFS = .skipped "Skip india_varios: file not found" ∧
      run_major_city emptyFS = .skipped "Skip major_city: file not found" ∧
      run_india_dataset emptyFS = .skipped "Skip India_dataset: file not found" ∧
      run_processed_aqi emptyFS = .skipped "Skip processed_aqi_data: file not found" ∧
      run_geojson emptyFS = .skipped "Skip india_states.geojson: file not found" := by
  have h := c8_missing_input_skips emptyFS
  exact ⟨h.1 rfl rfl, h.2.1 rfl, h.2.2.1 rfl, h.2.2.2.1 rfl, h.2.2.2.2.1 rfl,
    h.2.2.2.2.2.1 rfl, h.2.2.2.2.2.2.1 rfl⟩

/-- **C9**: the full run is a function of the raw inputs alone — it reads
no run-specific ambient state (no clock, no randomness), so two runs over
unchanged raw files produce identical outputs. -/
theorem c9_run_deterministic (fs : RawFS) (t1 t2 : ℕ) :
    main_run_at fs t1 = main_run_at fs t2 := rfl

/-- A `city_day.csv` file that exists but has no `Date` column. -/
def cityFileNoDate : CityFile := ⟨false, true, true, []⟩

/-- A raw directory where `city_day.csv` exists without its `Date`
column and every other input is absent. -/
def fsNoDate : RawFS := ⟨none, none, some cityFileNoDate, none, none, none, none, none⟩

/-- Whether a run completed without an uncaught exception. -/
def runOk : Except String RunOutputs → Bool
  | .ok _ => true
  | .error _ => false

/-- **C10**: when `city_day.csv` exists but lacks the unconditionally
referenced `Date` column, the routine raises `KeyError` and the whole run
aborts (the driver catches nothing) — unlike a missing file, which is
merely skipped and leaves the run to complete. -/
theorem c10_missing_column_aborts :
    main_run fsNoDate = .error "KeyError: Date" ∧ runOk (main_run emptyFS) = true :=
  ⟨rfl, rfl⟩

end CleanRawData
